import Mathlib

/-!
# Verification of the esmpy repository excerpt

Shallow embedding of the two source files of the repository —
`pyproject.toml` (packaging metadata) and
`notebooks/generate_data.ipynb` (a data-generation notebook) —
together with theorems settling the specification claims about them.
-/

namespace Esmpy

/-! ## Packaging metadata (`pyproject.toml`) -/

/-- The `[build-system]` table of `pyproject.toml`. -/
structure BuildSystem where
  requires : List String
  build_backend : String
deriving DecidableEq

/-- `[build-system]` as written in `pyproject.toml`. -/
def build_system : BuildSystem :=
  { requires := ["setuptools>=64", "setuptools_scm>=8", "wheel"]
    build_backend := "setuptools.build_meta" }

/-- `tool.setuptools.packages` as written in `pyproject.toml`. -/
def packages : List String :=
  ["espm", "espm.datasets", "espm.estimators", "espm.models",
   "espm.tables", "espm.tests", "espm.weights"]

/-- `project.dependencies` as written in `pyproject.toml`. -/
def dependencies : List String :=
  ["exspy==0.3.1",
   "hyperspy==2.2.0",
   "hyperspy-gui-ipywidgets==2.0.3",
   "hyperspy-gui-traitsui==2.0.1",
   "intervaltree==3.1.0",
   "tqdm==4.67.0",
   "prettytable==3.12.0",
   "scikit-learn",
   "pyqt5==5.15.10",
   "traits==7.0.2"]

/-- An entry point of the package: group, name, and the referenced module. -/
structure EntryPoint where
  group : String
  name : String
  module : String
deriving DecidableEq

/-- The single `[project.entry-points."hyperspy.extensions"]` entry of
`pyproject.toml`. -/
def entry_points : List EntryPoint :=
  [{ group := "hyperspy.extensions", name := "espm", module := "espm" }]

/-- A character that a PEP 508 version-constraint operator can start with. -/
def isConstraintChar (c : Char) : Bool :=
  c == '<' || c == '>' || c == '=' || c == '!' || c == '~'

/-- Split a character list at the first occurrence of `==`, returning the
parts before and after it, or `none` when no `==` occurs. -/
def splitAtDoubleEq : List Char → Option (List Char × List Char)
  | [] => none
  | '=' :: '=' :: rest => some ([], rest)
  | c :: rest =>
      (splitAtDoubleEq rest).map fun p => (c :: p.1, p.2)

/-- A dependency string pins one exact version exactly when it is of the
form `name==version` with a nonempty name, a nonempty version, and no other
constraint operator anywhere. -/
def isExactPin (d : String) : Bool :=
  match splitAtDoubleEq d.toList with
  | some (n, v) =>
      !n.isEmpty && !v.isEmpty &&
      n.all (fun c => !(isConstraintChar c)) &&
      v.all (fun c => !(isConstraintChar c))
  | none => false

/-- A dependency string carries no version constraint at all. -/
def hasNoConstraint (d : String) : Bool :=
  d.toList.all (fun c => !(isConstraintChar c))

/-! ## Notebook: espm imports and the repository's file tree -/

/-- A `from <module> import <name>` statement. -/
structure ImportStmt where
  module : String
  name : String
deriving DecidableEq

/-- The espm imports of the notebook's import cell, as written. -/
def espm_imports : List ImportStmt :=
  [{ module := "espm.datasets.base", name := "generate_dataset" },
   { module := "espm.weights.generate_weights", name := "chemical_map_weights" },
   { module := "espm.models.generate_EDXS_phases", name := "generate_modular_phases" },
   { module := "espm.models.EDXS_function", name := "elts_list_from_dict_list" }]

/-- The complete file tree of the repository excerpt (paths relative to the
repository root). -/
def source_tree : List String :=
  ["pyproject.toml", "notebooks/generate_data.ipynb"]

/-- Split a character list on a separator character. -/
def splitOnChar (sep : Char) : List Char → List (List Char)
  | [] => [[]]
  | c :: rest =>
      if c == sep then [] :: splitOnChar sep rest
      else
        match splitOnChar sep rest with
        | [] => [[c]]
        | h :: t => (c :: h) :: t

/-- Interleave a separator character between the chunks of a list. -/
def joinWithChar (sep : Char) : List (List Char) → List Char
  | [] => []
  | [x] => x
  | x :: xs => x ++ sep :: joinWithChar sep xs

/-- The path of the file implementing a Python module: dots become
directory separators and `.py` is appended. -/
def moduleImplFile (m : String) : String :=
  String.mk (joinWithChar '/' (splitOnChar '.' m.toList) ++ (".py").toList)

/-- One string is a prefix of another. -/
def strStarts (pre s : String) : Bool :=
  List.isPrefixOf pre.toList s.toList

/-! ## Notebook: the espm API calls, as written

Each call into the espm library is embedded syntactically: per argument,
the keyword it is passed under (`none` when the argument is positional) and
the argument expression exactly as it appears in the notebook source. -/

/-- One argument of a call: its keyword (or `none` when positional) and the
source text of the argument expression. -/
structure ApiArg where
  kw : Option String
  srcText : String
deriving DecidableEq

/-- One call into the espm library: the called function and its arguments
in source order. -/
structure ApiCall where
  func : String
  args : List ApiArg
deriving DecidableEq

/-- `weights = chemical_map_weights( file = path, line_list = ["Fe_Ka","Ca_Ka"], conc_list = [0.5,0.5])`. -/
def chemical_map_weights_call : ApiCall :=
  { func := "chemical_map_weights"
    args := [⟨some ("file"), "path"⟩,
             ⟨some ("line_list"), "[\"Fe_Ka\",\"Ca_Ka\"]"⟩,
             ⟨some ("conc_list"), "[0.5,0.5]"⟩] }

/-- `phases = generate_modular_phases(elts_dicts=elts_dicts, brstlg_pars = brstlg_pars, scales = [1, 1, 1], model_params= model_params, seed = 42)`. -/
def generate_modular_phases_call : ApiCall :=
  { func := "generate_modular_phases"
    args := [⟨some ("elts_dicts"), "elts_dicts"⟩,
             ⟨some ("brstlg_pars"), "brstlg_pars"⟩,
             ⟨some ("scales"), "[1, 1, 1]"⟩,
             ⟨some ("model_params"), "model_params"⟩,
             ⟨some ("seed"), "42"⟩] }

/-- `elements = elts_list_from_dict_list(elts_dicts)`: the single argument
is passed positionally. -/
def elts_list_from_dict_list_call : ApiCall :=
  { func := "elts_list_from_dict_list"
    args := [⟨none, "elts_dicts"⟩] }

/-- `generate_dataset( phases = phases, weights = weights, model_params = model_params, misc_params = data_dict, base_seed=data_dict["seed"], sample_number=1, elements = elements)`. -/
def generate_dataset_call : ApiCall :=
  { func := "generate_dataset"
    args := [⟨some ("phases"), "phases"⟩,
             ⟨some ("weights"), "weights"⟩,
             ⟨some ("model_params"), "model_params"⟩,
             ⟨some ("misc_params"), "data_dict"⟩,
             ⟨some ("base_seed"), "data_dict[\"seed\"]"⟩,
             ⟨some ("sample_number"), "1"⟩,
             ⟨some ("elements"), "elements"⟩] }

/-- All calls the notebook makes into the espm library, in source order. -/
def notebook_espm_calls : List ApiCall :=
  [chemical_map_weights_call, generate_modular_phases_call,
   elts_list_from_dict_list_call, generate_dataset_call]

/-- A call passes every one of its arguments by keyword. -/
def allKeyword (c : ApiCall) : Bool :=
  c.args.all fun a => a.kw.isSome

/-- The module an espm name is imported from in the notebook's import cell. -/
def importedModule (n : String) : Option String :=
  (espm_imports.find? fun i => i.name == n).map ImportStmt.module

/-! ## Notebook: configuration values, as written -/

/-- `elts_dicts`: the elemental concentration dictionary of each phase
(pseudo-ferropericlase, pseudo-Ca-perovskite, pseudo-bridgmanite), with
the concentrations as exact rationals. -/
def elts_dicts : List (List (String × ℚ)) :=
  [[("Mg", 0.522), ("Fe", 0.104), ("O", 0.374), ("Cu", 0.05)],
   [("Mg", 0.020), ("Fe", 0.018), ("Ca", 0.188), ("Si", 0.173),
    ("Al", 0.010), ("O", 0.572), ("Ti", 0.004), ("Cu", 0.05),
    ("Sm", 0.007), ("Lu", 0.006), ("Nd", 0.006)],
   [("Mg", 0.445), ("Fe", 0.035), ("Ca", 0.031), ("Si", 0.419),
    ("Al", 0.074), ("O", 1.136), ("Cu", 0.05), ("Hf", 0.01)]]

/-- `brstlg_pars`: the bremsstrahlung parameter dictionary of each phase. -/
def brstlg_pars : List (List (String × ℚ)) :=
  [[("b0", 0.0001629), ("b1", 0.0009812)],
   [("b0", 0.0007853), ("b1", 0.0003658)],
   [("b0", 0.0003458), ("b1", 0.0006268)]]

/-- The `"Abs"` sub-dictionary of `model_params["params_dict"]`. -/
structure AbsParams where
  thickness : ℚ
  toa : ℚ
  density : ℚ
  atomic_fraction : Bool
deriving DecidableEq

/-- The `"params_dict"` entry of `model_params`. -/
structure ParamsDict where
  Abs : AbsParams
  Det : String
deriving DecidableEq

/-- The `model_params` dictionary (energy scale, detector broadening,
x-ray emission database, beam energy, absorption, detector efficiency). -/
structure ModelParams where
  e_offset : ℚ
  e_size : ℕ
  e_scale : ℚ
  width_slope : ℚ
  width_intercept : ℚ
  db_name : String
  E0 : ℕ
  params_dict : ParamsDict
deriving DecidableEq

/-- `model_params` as written in the notebook (`100.0e-7` is the exact
rational `1/100000`). -/
def model_params : ModelParams :=
  { e_offset := 0.3
    e_size := 1980
    e_scale := 0.01
    width_slope := 0.01
    width_intercept := 0.065
    db_name := "200keV_xrays.json"
    E0 := 200
    params_dict :=
      { Abs := { thickness := 1 / 100000, toa := 35, density := 4.5,
                 atomic_fraction := false }
        Det := "SDD_efficiency.txt" } }

/-- The `data_dict` dictionary of miscellaneous parameters. -/
structure DataDict where
  N : ℕ
  densities : List ℚ
  data_folder : String
  model : String
  seed : ℤ
deriving DecidableEq

/-- `data_dict` as written in the notebook. -/
def data_dict : DataDict :=
  { N := 100
    densities := [1.2, 1.0, 0.8]
    data_folder := "71GPa_synthetic_N100"
    model := "EDXS"
    seed := 42 }

/-- The `line_list` argument of the `chemical_map_weights` call. -/
def line_list : List String := ["Fe_Ka", "Ca_Ka"]

/-- The `conc_list` argument of the `chemical_map_weights` call. -/
def conc_list : List ℚ := [0.5, 0.5]

/-- The `scales` argument of the `generate_modular_phases` call. -/
def scales : List ℚ := [1, 1, 1]

/-- The `seed` argument of the `generate_modular_phases` call. -/
def generate_modular_phases_seed : ℤ := 42

/-- The `base_seed` argument of the `generate_dataset` call, which the
notebook passes as `data_dict["seed"]`. -/
def generate_dataset_base_seed : ℤ := data_dict.seed

/-- The sum of the values of a concentration dictionary. -/
def dictSum (d : List (String × ℚ)) : ℚ :=
  (d.map Prod.snd).sum

/-- Modelled from the spec: `generate_modular_phases` (implemented in
`espm.models.generate_EDXS_phases`, which is not in the source tree) builds
one simulated phase spectrum per elemental-concentration dictionary it is
given, so the call produces one phase per entry of `elts_dicts`. -/
def n_generated_phases : ℕ := elts_dicts.length

/-- The subplot grid `plt.subplots(1,3)` of the weights plot cell. -/
def weights_plot_grid : ℕ × ℕ := (1, 3)

/-- The subplot grid `plt.subplots(3,1)` of the phases plot cell. -/
def phases_plot_grid : ℕ × ℕ := (3, 1)

/-- The number of axes a subplot grid with one singleton dimension yields
after matplotlib squeezes it to a one-dimensional array: the plot loops run
`range(axs.shape[0])`, which is this number. -/
def axesCount (g : ℕ × ℕ) : ℕ := g.1 * g.2

/-! ## Notebook: filesystem paths and effects -/

/-- A filesystem path, as its list of components. -/
abbrev PyPath := List String

/-- `Path.resolve()` on an already absolute, symlink-free path: the
identity (the notebook resolves `Path.cwd() / "generate_data.ipynb"`, and
`Path.cwd()` is always absolute and resolved). -/
def resolvePath (p : PyPath) : PyPath := p

/-- `Path.parent`: drop the last component. -/
def parentPath (p : PyPath) : PyPath := p.dropLast

/-- `get_repo_path()` of the notebook:
`(Path.cwd() / Path("generate_data.ipynb")).resolve().parent.parent`. -/
def get_repo_path (cwd : PyPath) : PyPath :=
  parentPath (parentPath (resolvePath (cwd ++ ["generate_data.ipynb"])))

/-- `path = get_repo_path() / Path("generated_datasets/71GPa_experimental_data.hspy")`:
the path of the experimental dataset. -/
def experimental_data_path (cwd : PyPath) : PyPath :=
  get_repo_path cwd ++ ["generated_datasets", "71GPa_experimental_data.hspy"]

/-- A filesystem effect of the notebook: reading a file or writing into a
named output folder. -/
inductive FsEffect where
  | readFile (p : PyPath)
  | writeFolder (name : String)
deriving DecidableEq

/-- An effect is a filesystem read. -/
def FsEffect.isRead : FsEffect → Bool
  | .readFile _ => true
  | _ => false

/-- An effect is a filesystem write. -/
def FsEffect.isWrite : FsEffect → Bool
  | .writeFolder _ => true
  | _ => false

/-- Modelled from the spec: the notebook's filesystem interface, in order.
`chemical_map_weights` (implementation not in the source tree) reads the
experimental data file passed as its `file` argument, and `generate_dataset`
(implementation not in the source tree) writes the generated datasets into
the folder named by its `misc_params["data_folder"]` entry. -/
def notebook_fs_effects (cwd : PyPath) : List FsEffect :=
  [.readFile (experimental_data_path cwd),
   .writeFolder data_dict.data_folder]

/-! ## Notebook: accesses to the configuration dictionaries

Every access the notebook source makes to `elts_dicts`, `brstlg_pars`,
`model_params` or `data_dict` after the cell defining them, in source
order. -/

/-- One access to a configuration dictionary. -/
inductive DictAccess where
  | passedArg (dict callee : String)
  | readKey (dict key : String)
  | addKey (dict key : String)
  | removeKey (dict key : String)
  | assignKey (dict key : String)
deriving DecidableEq

/-- An access mutates the dictionary (adds, removes or reassigns a key). -/
def DictAccess.isMutation : DictAccess → Bool
  | .addKey _ _ => true
  | .removeKey _ _ => true
  | .assignKey _ _ => true
  | _ => false

/-- An access reads a key of the dictionary. -/
def DictAccess.isKeyRead : DictAccess → Bool
  | .readKey _ _ => true
  | _ => false

/-- The accesses to the four configuration dictionaries between their
definition cell and the end of the notebook, in evaluation order:
the `generate_modular_phases` cell, then the phases plot cell (which reads
`model_params["e_offset"]` twice, `model_params["e_scale"]` once and
`model_params["e_size"]` twice to build the energy scale), then the
`generate_dataset` cell. -/
def config_dict_accesses : List DictAccess :=
  [.passedArg ("elts_dicts") ("generate_modular_phases"),
   .passedArg ("brstlg_pars") ("generate_modular_phases"),
   .passedArg ("model_params") ("generate_modular_phases"),
   .passedArg ("elts_dicts") ("elts_list_from_dict_list"),
   .readKey ("model_params") ("e_offset"),
   .readKey ("model_params") ("e_offset"),
   .readKey ("model_params") ("e_scale"),
   .readKey ("model_params") ("e_size"),
   .readKey ("model_params") ("e_size"),
   .passedArg ("model_params") ("generate_dataset"),
   .passedArg ("data_dict") ("generate_dataset"),
   .readKey ("data_dict") ("seed")]

end Esmpy

namespace Esmpy

/-- **C2, counterexample.** The claim "every entry in the dependencies list
is pinned to an exact version" is false: the entry `scikit-learn` is in the
dependencies list and carries no `==` constraint (indeed no constraint at
all), so not every dependency specifies one exact version. -/
theorem C2_scikit_learn_unpinned :
    "scikit-learn" ∈ dependencies ∧
    isExactPin ("scikit-learn") = false ∧
    (dependencies.all isExactPin) = false := by decide

/-- **C2, amended.** Every entry of `project.dependencies` other than
`scikit-learn` is pinned to an exact version by a `==` constraint;
`scikit-learn` is the single exception and carries no version constraint at
all. -/
theorem C2_dependencies_pinned_except_scikit_learn :
    (dependencies.all fun d => isExactPin d || d == "scikit-learn") = true ∧
    (dependencies.filter fun d => !(isExactPin d)) = ["scikit-learn"] ∧
    hasNoConstraint ("scikit-learn") = true := by decide

/-- **C5.** The packaging metadata declares exactly one plugin registration
entry point; it lives in the `hyperspy.extensions` entry-point group and maps
the name `espm` to the module `espm`. -/
theorem C5_hyperspy_extension_entry_point :
    entry_points =
      [{ group := "hyperspy.extensions", name := "espm", module := "espm" }] ∧
    entry_points.length = 1 ∧
    (entry_points.all fun e =>
      e.group == "hyperspy.extensions" && e.name == "espm" && e.module == "espm")
      = true := by decide

/-- **C7.** The build system declaration uses the `setuptools.build_meta`
backend and requires `setuptools>=64`, `setuptools_scm>=8` and `wheel`; the
declared package list has exactly seven entries, each of which is `espm`
itself or a subpackage whose name starts with `espm.`. -/
theorem C7_build_system_and_packages :
    build_system.build_backend = "setuptools.build_meta" ∧
    build_system.requires = ["setuptools>=64", "setuptools_scm>=8", "wheel"] ∧
    packages.length = 7 ∧
    (packages.all fun p => p == "espm" || strStarts ("espm.") p) = true := by
  decide

/-- **C1, counterexample.** The claim "every espm API call passes all of its
arguments by keyword" is false: the call `elts_list_from_dict_list(elts_dicts)`
is one of the notebook's espm calls and passes its single argument
positionally (its keyword list is `[none]`), so not every espm call is free
of positional arguments. -/
theorem C1_positional_argument_counterexample :
    elts_list_from_dict_list_call ∈ notebook_espm_calls ∧
    elts_list_from_dict_list_call.args.map ApiArg.kw = [none] ∧
    (notebook_espm_calls.all allKeyword) = false := by decide

/-- **C1, amended.** Every call the notebook makes into the espm API passes
all of its arguments by keyword, except the `elts_list_from_dict_list` call,
which passes its single argument (`elts_dicts`) positionally; it is the only
espm call with a positional argument. -/
theorem C1_all_keyword_except_elts_list_from_dict_list :
    (notebook_espm_calls.all fun c =>
      allKeyword c || c.func == "elts_list_from_dict_list") = true ∧
    (notebook_espm_calls.filter fun c => !(allKeyword c))
      = [elts_list_from_dict_list_call] ∧
    elts_list_from_dict_list_call.args = [⟨none, "elts_dicts"⟩] := by decide

/-- **C3.** Every espm function the notebook calls is one of
`generate_dataset`, `chemical_map_weights`, `generate_modular_phases`,
`elts_list_from_dict_list`; each is imported from the stated espm module;
and no implementation file of any of those modules — indeed no path under
`espm` at all — is present in the repository's source tree. -/
theorem C3_calls_imported_and_implementations_absent :
    ((notebook_espm_calls.map ApiCall.func).all fun n =>
      ["generate_dataset", "chemical_map_weights", "generate_modular_phases",
       "elts_list_from_dict_list"].contains n) = true ∧
    importedModule ("generate_dataset") = some ("espm.datasets.base") ∧
    importedModule ("chemical_map_weights") = some ("espm.weights.generate_weights") ∧
    importedModule ("generate_modular_phases") = some ("espm.models.generate_EDXS_phases") ∧
    importedModule ("elts_list_from_dict_list") = some ("espm.models.EDXS_function") ∧
    (espm_imports.all fun i =>
      !(source_tree.contains (moduleImplFile i.module))) = true ∧
    (source_tree.all fun f => !(strStarts ("espm") f)) = true := by decide

/-- **C4, counterexample.** The claim that between the configuration
dictionaries' definition and their use as arguments the only access is
reading `data_dict["seed"]` is false: the phases plot cell reads
`model_params["e_offset"]` (to build the energy scale), so the key reads are
not limited to `data_dict["seed"]`. -/
theorem C4_model_params_read_counterexample :
    DictAccess.readKey ("model_params") ("e_offset") ∈ config_dict_accesses ∧
    (config_dict_accesses.filter DictAccess.isKeyRead)
      ≠ [DictAccess.readKey ("data_dict") ("seed")] := by decide

/-- **C4, amended.** Between their definition and their use as arguments of
`generate_modular_phases` or `generate_dataset`, no key of `elts_dicts`,
`brstlg_pars`, `model_params` or `data_dict` is added, removed or
reassigned and no value is transformed; the only accesses besides passing
whole dictionaries as arguments are reads: `model_params["e_offset"]`
(twice), `model_params["e_scale"]`, `model_params["e_size"]` (twice) in the
phases plot cell, and `data_dict["seed"]` in the `generate_dataset` call. -/
theorem C4_config_dicts_never_mutated :
    (config_dict_accesses.all fun a => !(a.isMutation)) = true ∧
    config_dict_accesses.filter DictAccess.isMutation = [] ∧
    config_dict_accesses.filter DictAccess.isKeyRead
      = [.readKey ("model_params") ("e_offset"),
         .readKey ("model_params") ("e_offset"),
         .readKey ("model_params") ("e_scale"),
         .readKey ("model_params") ("e_size"),
         .readKey ("model_params") ("e_size"),
         .readKey ("data_dict") ("seed")] := by decide

/-- **C6.** For any current working directory, the notebook's only
filesystem read is the file
`<repo root>/generated_datasets/71GPa_experimental_data.hspy`, where
`<repo root>` is the parent of the parent of the resolved path
`cwd/generate_data.ipynb` as computed by `get_repo_path` (equivalently, the
parent of `cwd`); that path is the `file` argument of the
`chemical_map_weights` call; and the only write target is the folder named
by `data_dict["data_folder"]`, namely `71GPa_synthetic_N100`, passed into
`generate_dataset` through `misc_params`. -/
theorem C6_filesystem_reads_and_writes (cwd : PyPath) :
    (notebook_fs_effects cwd).filter FsEffect.isRead
      = [.readFile (get_repo_path cwd
          ++ ["generated_datasets", "71GPa_experimental_data.hspy"])] ∧
    get_repo_path cwd
      = ((resolvePath (cwd ++ ["generate_data.ipynb"])).dropLast).dropLast ∧
    get_repo_path cwd = cwd.dropLast ∧
    (⟨some ("file"), "path"⟩ : ApiArg) ∈ chemical_map_weights_call.args ∧
    (notebook_fs_effects cwd).filter FsEffect.isWrite
      = [.writeFolder (data_dict.data_folder)] ∧
    data_dict.data_folder = "71GPa_synthetic_N100" := by
  refine ⟨rfl, rfl, ?_, by decide, rfl, rfl⟩
  show ((cwd ++ ["generate_data.ipynb"]).dropLast).dropLast = cwd.dropLast
  rw [List.dropLast_concat]

/-- **C6, witness.** The filesystem claim instantiated at the concrete
working directory `home/esmpy/notebooks`. -/
theorem C6_filesystem_reads_and_writes_witness :
    (notebook_fs_effects ["home", "esmpy", "notebooks"]).filter FsEffect.isRead
      = [.readFile (get_repo_path ["home", "esmpy", "notebooks"]
          ++ ["generated_datasets", "71GPa_experimental_data.hspy"])] ∧
    get_repo_path ["home", "esmpy", "notebooks"]
      = ((resolvePath (["home", "esmpy", "notebooks"]
          ++ ["generate_data.ipynb"])).dropLast).dropLast ∧
    get_repo_path ["home", "esmpy", "notebooks"]
      = (["home", "esmpy", "notebooks"] : PyPath).dropLast ∧
    (⟨some ("file"), "path"⟩ : ApiArg) ∈ chemical_map_weights_call.args ∧
    (notebook_fs_effects ["home", "esmpy", "notebooks"]).filter FsEffect.isWrite
      = [.writeFolder (data_dict.data_folder)] ∧
    data_dict.data_folder = "71GPa_synthetic_N100" :=
  C6_filesystem_reads_and_writes ["home", "esmpy", "notebooks"]

/-- **C8.** The notebook's configuration is phase-count consistent:
`elts_dicts`, `brstlg_pars`, the `scales` argument and
`data_dict["densities"]` all have length exactly 3, the
`generate_modular_phases` call produces 3 phases (one per concentration
dictionary), and both plot cells iterate over 3 axes. -/
theorem C8_phase_count_consistency :
    elts_dicts.length = 3 ∧
    brstlg_pars.length = 3 ∧
    scales.length = 3 ∧
    data_dict.densities.length = 3 ∧
    n_generated_phases = 3 ∧
    axesCount weights_plot_grid = 3 ∧
    axesCount phases_plot_grid = 3 := by decide

/-- **C9.** The per-phase concentration dictionaries are not normalized:
the sums of the three dictionaries of `elts_dicts` are exactly `1.050`
(pseudo-ferropericlase), `1.054` (pseudo-Ca-perovskite) and `2.200`
(pseudo-bridgmanite), each exceeding 1, whereas the `conc_list` argument
`[0.5, 0.5]` of `chemical_map_weights` sums to exactly 1. -/
theorem C9_concentrations_unnormalized :
    elts_dicts.map dictSum = [1.050, 1.054, 2.200] ∧
    ((elts_dicts.map dictSum).all fun s => 1 < s) = true ∧
    conc_list.sum = 1 := by
  refine ⟨?_, ?_, ?_⟩
  · simp only [elts_dicts, dictSum, List.map_cons, List.map_nil,
      List.sum_cons, List.sum_nil]
    norm_num
  · simp only [elts_dicts, dictSum, List.map_cons, List.map_nil,
      List.sum_cons, List.sum_nil, List.all_cons, List.all_nil,
      Bool.and_true, Bool.and_eq_true, decide_eq_true_eq]
    norm_num
  · simp only [conc_list, List.sum_cons, List.sum_nil]
    norm_num

/-- **C10.** The notebook's random-seed inputs agree: the `seed` argument
of `generate_modular_phases` is the literal 42, `data_dict["seed"]` is 42,
and the `base_seed` argument of `generate_dataset` is read from
`data_dict["seed"]` and hence also equals 42. -/
theorem C10_seeds_agree :
    generate_modular_phases_seed = 42 ∧
    data_dict.seed = 42 ∧
    generate_dataset_base_seed = data_dict.seed ∧
    generate_dataset_base_seed = 42 ∧
    (⟨some ("seed"), "42"⟩ : ApiArg) ∈ generate_modular_phases_call.args ∧
    (⟨some ("base_seed"), "data_dict[\"seed\"]"⟩ : ApiArg)
      ∈ generate_dataset_call.args := by decide

end Esmpy
